import Mathlib

/-!
Verification of the py-trello client library (src/trello/__init__.py).

The Python code is shallowly embedded: every operation that performs HTTP
traffic is modelled as a pure function from a `Transport` oracle (a function
from requests to responses) to a result.  Stateful Python objects become
explicit state records; attributes that the Python constructor leaves unset
are `Option` fields holding `none`.  Python exceptions become the
`TrelloError` sum type threaded through `Except`; an operation that mutates
an object returns the state the object holds when control returns to the
caller (on an exception, the assignments executed before the raise have
happened, the later ones have not).  JSON values are modelled by the `Json`
inductive; dictionary subscription that can raise KeyError or TypeError is
modelled by `jget`, `asStr`, `asArr` and `setFieldE`.
-/

/-- Minimal JSON value model used by the embedding. -/
inductive Json where
  | null : Json
  | str (s : String) : Json
  | bool (b : Bool) : Json
  | num (n : Int) : Json
  | arr (xs : List Json) : Json
  | obj (fields : List (String × Json)) : Json
deriving Repr

mutual

/-- Structural equality of JSON values, modelling the Python == operator
(deep equality, values of different types compare unequal). -/
def Json.beq : Json → Json → Bool
  | Json.null, Json.null => true
  | Json.str a, Json.str b => a == b
  | Json.bool a, Json.bool b => a == b
  | Json.num a, Json.num b => a == b
  | Json.arr a, Json.arr b => Json.beqList a b
  | Json.obj a, Json.obj b => Json.beqFields a b
  | _, _ => false
termination_by structural x => x

/-- Elementwise equality of JSON arrays. -/
def Json.beqList : List Json → List Json → Bool
  | [], [] => true
  | x :: xs, y :: ys => Json.beq x y && Json.beqList xs ys
  | _, _ => false
termination_by structural x => x

/-- Elementwise equality of JSON object field lists. -/
def Json.beqFields : List (String × Json) → List (String × Json) → Bool
  | [], [] => true
  | (k, x) :: xs, (l, y) :: ys => k == l && Json.beq x y && Json.beqFields xs ys
  | _, _ => false
termination_by structural x => x

end

/-- First-match lookup in an association list of JSON object fields
(Python dict keys are unique, so first match is dict lookup). -/
def lookupField : List (String × Json) → String → Option Json
  | [], _ => none
  | (k, v) :: rest, key => if k == key then some v else lookupField rest key

/-- Python json_obj[k] read access, as a partial lookup. -/
def getField (j : Json) (k : String) : Option Json :=
  match j with
  | Json.obj fs => lookupField fs k
  | _ => none

/-- Python json_obj.get(k, d). -/
def getFieldD (j : Json) (k : String) (d : Json) : Json :=
  (getField j k).getD d

/-- Replace the value of a key in an object field list, or append it. -/
def setFieldList : List (String × Json) → String → Json → List (String × Json)
  | [], k, v => [(k, v)]
  | (k2, v2) :: rest, k, v =>
      if k2 == k then (k, v) :: rest else (k2, v2) :: setFieldList rest k v

/-- Python truthiness of a JSON value (used by the if json_obj.get check). -/
def pyTruthy : Json → Bool
  | Json.null => false
  | Json.str s => !s.isEmpty
  | Json.bool b => b
  | Json.num n => n != 0
  | Json.arr xs => !xs.isEmpty
  | Json.obj fs => !fs.isEmpty

/-- Error taxonomy of the library.  ResourceUnavailable and Unauthorized
carry the formatted message and the numeric HTTP status of the response;
tokenError models TokenError and exception models a plain Exception
(including KeyError, TypeError and AttributeError raised by the runtime). -/
inductive TrelloError where
  | unauthorized (msg : String) (status : Nat) : TrelloError
  | resourceUnavailable (msg : String) (status : Nat) : TrelloError
  | tokenError (msg : String) : TrelloError
  | exception (msg : String) : TrelloError
deriving Repr, DecidableEq

/-- Python json_obj[k], raising KeyError (or TypeError on a non-dict)
when the key cannot be read. -/
def jget (j : Json) (k : String) : Except TrelloError Json :=
  match getField j k with
  | some v => Except.ok v
  | none => Except.error (TrelloError.exception ("KeyError: " ++ k))

/-- Coercion of a JSON value to a string; non-strings raise, modelling the
TypeError Python raises when such a value reaches a string operation. -/
def asStr : Json → Except TrelloError String
  | Json.str s => Except.ok s
  | _ => Except.error (TrelloError.exception "TypeError: expected str")

/-- Coercion of a JSON value to a list; non-arrays raise, modelling the
TypeError Python raises when iterating a non-iterable. -/
def asArr : Json → Except TrelloError (List Json)
  | Json.arr xs => Except.ok xs
  | _ => Except.error (TrelloError.exception "TypeError: not iterable")

/-- Python json_obj[k] = v on a JSON value; assignment on a non-object
raises TypeError. -/
def setFieldE (j : Json) (k : String) (v : Json) : Except TrelloError Json :=
  match j with
  | Json.obj fs => Except.ok (Json.obj (setFieldList fs k v))
  | _ => Except.error (TrelloError.exception "TypeError: item assignment")

/-- File payload of an attachment upload: dict(file=(name, file, mimeType)). -/
structure FilesPayload where
  name : Option String
  content : String
  mimeType : Option String
deriving Repr, DecidableEq

/-- An HTTP request as assembled by the library before it is handed to the
requests package. -/
structure Request where
  http_method : String
  url : String
  headers : List (String × String)
  query_params : List (String × Json)
  data : Option (List (String × Json))
  files : Option FilesPayload
deriving Repr

/-- The raw HTTP response the requests package hands back. -/
structure HttpResponse where
  status_code : Nat
  text : String
  body : Json

/-- The network, modelled as a deterministic oracle from requests to
responses. -/
def Transport : Type := Request → HttpResponse

/-- TrelloClient.fetch_json: when the first character of the path is a
slash drop it, then prefix the fixed API origin (the paths the library
builds are never empty, so the subscript never fails). -/
def apiUrl (uri_path : String) : String :=
  "https://api.trello.com/1/" ++
    (match uri_path.data with
     | c :: rest => if c = '/' then String.mk rest else uri_path
     | [] => uri_path)

/-- True for the verbs that get a JSON content type header. -/
def mutatingVerb (m : String) : Bool :=
  m == "POST" || m == "PUT" || m == "DELETE"

/-- The request TrelloClient.fetch_json builds: JSON body from post_args
unless files are supplied, content-type header for mutating verbs without
files, Accept header always, URL from the fixed origin. -/
def mkFetchReq (http_method uri_path : String)
    (query_params post_args : List (String × Json))
    (files : Option FilesPayload) : Request :=
  { http_method := http_method
    url := apiUrl uri_path
    headers :=
      (if mutatingVerb http_method && files.isNone then
        [("Content-Type", "application/json; charset=utf-8")]
      else []) ++ [("Accept", "application/json")]
    query_params := query_params
    data := if files.isNone then some post_args else none
    files := files }

/-- Status handling of TrelloClient.fetch_json: 401 raises Unauthorized,
any other non-200 raises ResourceUnavailable, 200 returns the parsed body;
the message is the response text followed by the target URL. -/
def fetchOutcome (t : Transport) (req : Request) : Except TrelloError Json :=
  let response := t req
  if response.status_code == 401 then
    Except.error
      (TrelloError.unauthorized (response.text ++ " at " ++ req.url)
        response.status_code)
  else if response.status_code != 200 then
    Except.error
      (TrelloError.resourceUnavailable (response.text ++ " at " ++ req.url)
        response.status_code)
  else
    Except.ok response.body

/-- TrelloClient.fetch_json: build the request, perform it, translate the
response.  Returns the request it issued together with the outcome. -/
def fetch_json (t : Transport) (http_method uri_path : String)
    (query_params post_args : List (String × Json))
    (files : Option FilesPayload) : Request × Except TrelloError Json :=
  let req := mkFetchReq http_method uri_path query_params post_args files
  (req, fetchOutcome t req)

/-- C2: for every call to TrelloClient.fetch_json, a 401 response raises
Unauthorized whose message is the response body text followed by the target
URL and which carries the numeric status; any other non-200 status raises
ResourceUnavailable of the same shape; a 200 response returns the parsed
JSON body. -/
theorem spec_c2 (t : Transport) (m p : String)
    (qp pa : List (String × Json)) (f : Option FilesPayload) :
    ((t (mkFetchReq m p qp pa f)).status_code = 401 →
      (fetch_json t m p qp pa f).2 =
        Except.error (TrelloError.unauthorized
          ((t (mkFetchReq m p qp pa f)).text ++ " at " ++ apiUrl p) 401)) ∧
    ((t (mkFetchReq m p qp pa f)).status_code ≠ 401 →
      (t (mkFetchReq m p qp pa f)).status_code ≠ 200 →
      (fetch_json t m p qp pa f).2 =
        Except.error (TrelloError.resourceUnavailable
          ((t (mkFetchReq m p qp pa f)).text ++ " at " ++ apiUrl p)
          (t (mkFetchReq m p qp pa f)).status_code)) ∧
    ((t (mkFetchReq m p qp pa f)).status_code = 200 →
      (fetch_json t m p qp pa f).2 =
        Except.ok (t (mkFetchReq m p qp pa f)).body) := by
  refine ⟨?_, ?_, ?_⟩ <;>
    · intros
      simp_all [fetch_json, fetchOutcome, mkFetchReq]

/-- Concrete instances of spec_c2: a transport answering 401 yields the
Unauthorized failure, one answering 503 yields ResourceUnavailable, and one
answering 200 returns the body. -/
theorem spec_c2_witness :
    (fetch_json (fun _ => ⟨401, "no auth", Json.null⟩) "GET" "/boards/b1"
        [] [] none).2 =
      Except.error (TrelloError.unauthorized
        ("no auth" ++ " at " ++ apiUrl "/boards/b1") 401) ∧
    (fetch_json (fun _ => ⟨503, "down", Json.null⟩) "GET" "/boards/b1"
        [] [] none).2 =
      Except.error (TrelloError.resourceUnavailable
        ("down" ++ " at " ++ apiUrl "/boards/b1") 503) ∧
    (fetch_json (fun _ => ⟨200, "", Json.str "ok"⟩) "GET" "/boards/b1"
        [] [] none).2 = Except.ok (Json.str "ok") := by
  refine ⟨?_, ?_, ?_⟩
  · exact (spec_c2 (fun _ => ⟨401, "no auth", Json.null⟩) "GET" "/boards/b1"
      [] [] none).1 rfl
  · exact (spec_c2 (fun _ => ⟨503, "down", Json.null⟩) "GET" "/boards/b1"
      [] [] none).2.1 (by decide) (by decide)
  · exact (spec_c2 (fun _ => ⟨200, "", Json.str "ok"⟩) "GET" "/boards/b1"
      [] [] none).2.2 rfl

/-- Result of an operation on a stateful entity: the state the Python
object holds when control returns (normally or by exception), the requests
issued in order, and the returned value or propagated exception. -/
structure OpResult (σ : Type) (α : Type) where
  state : σ
  calls : List Request
  result : Except TrelloError α

/-- The write-then-mirror mutator pattern: perform the remote call; if it
raised, propagate the exception with the object unchanged; otherwise apply
the single local assignment that follows the call in the source.  Mutators
that perform no local assignment pass old for new. -/
def writeThenMirror {σ : Type} (pr : Request × Except TrelloError Json)
    (old new : σ) : OpResult σ Unit :=
  match pr with
  | (req, Except.error e) => ⟨old, [req], Except.error e⟩
  | (req, Except.ok _) => ⟨new, [req], Except.ok ()⟩

theorem writeThenMirror_err {σ : Type} (pr : Request × Except TrelloError Json)
    (old new : σ) (e : TrelloError)
    (h : (writeThenMirror pr old new).result = Except.error e) :
    (writeThenMirror pr old new).state = old := by
  rcases pr with ⟨req, r⟩
  cases r <;> simp_all [writeThenMirror]

theorem writeThenMirror_ok {σ : Type} (pr : Request × Except TrelloError Json)
    (old new : σ)
    (h : (writeThenMirror pr old new).result = Except.ok ()) :
    (writeThenMirror pr old new).state = new := by
  rcases pr with ⟨req, r⟩
  cases r <;> simp_all [writeThenMirror]

theorem writeThenMirror_calls {σ : Type}
    (pr : Request × Except TrelloError Json) (old new : σ) :
    (writeThenMirror pr old new).calls = [pr.1] := by
  rcases pr with ⟨req, r⟩
  cases r <;> simp [writeThenMirror]

theorem writeThenMirror_result {σ : Type}
    (pr : Request × Except TrelloError Json) (old new : σ) :
    (writeThenMirror pr old new).result = pr.2.map (fun _ => ()) := by
  rcases pr with ⟨req, r⟩
  cases r <;> simp [writeThenMirror, Except.map]

/-- A Python datetime value; the datetime type guarantees
1 <= year <= 9999, 1 <= month <= 12 and 1 <= day <= 31. -/
structure PyDatetime where
  year : Nat
  month : Nat
  day : Nat
deriving Repr, DecidableEq

/-- due.strftime of the date-only format string used by Card.set_due:
four zero-padded year digits, a dash, two month digits, a dash, two day
digits (datetime years never exceed 9999). -/
def strftimeYmd (d : PyDatetime) : String :=
  String.mk [Nat.digitChar (d.year / 1000 % 10), Nat.digitChar (d.year / 100 % 10),
    Nat.digitChar (d.year / 10 % 10), Nat.digitChar (d.year % 10), '-',
    Nat.digitChar (d.month / 10 % 10), Nat.digitChar (d.month % 10), '-',
    Nat.digitChar (d.day / 10 % 10), Nat.digitChar (d.day % 10)]

/-- Abstraction of a dateutil-parsed timestamp: the parse result is kept
as the raw string it was parsed from (the parsed value is never inspected
by the library). -/
structure ParsedDate where
  raw : String
deriving Repr, DecidableEq

/-- Abstraction of dateutil parser.parse. -/
def dateparser_parse (s : String) : ParsedDate := ⟨s⟩

/-- State of a Checklist object: the card id it was created under, its id,
its raw name value and its raw item dictionaries. -/
structure ChecklistState where
  trello_card : Option String
  id : String
  name : Json
  items : List Json
deriving Repr

/-- State of a Card object.  Attributes the Python constructor leaves
unset are Options holding none; fields Python stores raw JSON values in
stay Json here. -/
structure CardState where
  id : String
  name : String
  desc : Option Json
  closed : Option Json
  url : Option Json
  member_ids : Option Json
  label_ids : Option Json
  labels : Option Json
  due : Option String
  idMembers : Option Json
  idShort : Option Json
  idList : Option Json
  idBoard : Option Json
  badges : Option Json
  checked : Option Json
  dateLastActivity : Option ParsedDate
  checklists : Option (List ChecklistState)
  comments : Option Json
deriving Repr

/-- A card as built by Card.__init__ before any attribute is fetched. -/
def emptyCard : CardState :=
  { id := "", name := "", desc := none, closed := none, url := none
    member_ids := none, label_ids := none, labels := none, due := none
    idMembers := none, idShort := none, idList := none, idBoard := none
    badges := none, checked := none, dateLastActivity := none
    checklists := none, comments := none }

/-- State of a Board object. -/
structure BoardState where
  id : String
  name : String
  description : Option Json
  closed : Option Json
  url : Option Json
deriving Repr

/-- State of a List object. -/
structure ListState where
  id : String
  name : String
  closed : Option Json
deriving Repr

/-- Card._set_remote_attribute: one PUT to /cards/id/attribute with the
value as post argument. -/
def Card.set_remote_attribute (t : Transport) (c : CardState)
    (attr : String) (value : Json) : Request × Except TrelloError Json :=
  fetch_json t "PUT" ("/cards/" ++ c.id ++ "/" ++ attr) []
    [("value", value)] none

/-- The request Card._set_remote_attribute issues. -/
def setAttrReq (cardId attr : String) (value : Json) : Request :=
  mkFetchReq "PUT" ("/cards/" ++ cardId ++ "/" ++ attr) []
    [("value", value)] none

/-- Card.set_name: remote write of the name attribute, then mirror the
new name into the local field. -/
def Card.set_name (t : Transport) (c : CardState) (new_name : String) :
    OpResult CardState Unit :=
  writeThenMirror (Card.set_remote_attribute t c "name" (Json.str new_name))
    c { c with name := new_name }

/-- Card.set_description: remote write of desc, then mirror locally. -/
def Card.set_description (t : Transport) (c : CardState)
    (description : String) : OpResult CardState Unit :=
  writeThenMirror (Card.set_remote_attribute t c "desc" (Json.str description))
    c { c with desc := some (Json.str description) }

/-- Card.set_due: format the datetime as YYYY-MM-DD, remote write of due,
then mirror the formatted string locally. -/
def Card.set_due (t : Transport) (c : CardState) (due : PyDatetime) :
    OpResult CardState Unit :=
  writeThenMirror
    (Card.set_remote_attribute t c "due" (Json.str (strftimeYmd due)))
    c { c with due := some (strftimeYmd due) }

/-- Card.set_closed: remote write of closed, then mirror locally. -/
def Card.set_closed (t : Transport) (c : CardState) (closed : Bool) :
    OpResult CardState Unit :=
  writeThenMirror (Card.set_remote_attribute t c "closed" (Json.bool closed))
    c { c with closed := some (Json.bool closed) }

/-- Card.assign: one POST to /cards/id/members; no local field updated. -/
def Card.assign (t : Transport) (c : CardState) (member_id : String) :
    OpResult CardState Unit :=
  writeThenMirror
    (fetch_json t "POST" ("/cards/" ++ c.id ++ "/members") []
      [("value", Json.str member_id)] none)
    c c

/-- Card.comment: one POST to /cards/id/actions/comments; no local field
updated. -/
def Card.comment (t : Transport) (c : CardState) (comment_text : String) :
    OpResult CardState Unit :=
  writeThenMirror
    (fetch_json t "POST" ("/cards/" ++ c.id ++ "/actions/comments") []
      [("text", Json.str comment_text)] none)
    c c

/-- Card.change_list: one PUT to /cards/id/idList; no local field
updated. -/
def Card.change_list (t : Transport) (c : CardState) (list_id : String) :
    OpResult CardState Unit :=
  writeThenMirror
    (fetch_json t "PUT" ("/cards/" ++ c.id ++ "/idList") []
      [("value", Json.str list_id)] none)
    c c

/-- Card.change_board: one PUT to /cards/id/idBoard, with an idList post
argument when a list id is given; no local field updated. -/
def Card.change_board (t : Transport) (c : CardState) (board_id : String)
    (list_id : Option String) : OpResult CardState Unit :=
  writeThenMirror
    (fetch_json t "PUT" ("/cards/" ++ c.id ++ "/idBoard") []
      (("value", Json.str board_id) ::
        (match list_id with
         | some l => [("idList", Json.str l)]
         | none => []))
      none)
    c c

/-- Board.close: one PUT of the string value true to /boards/id/closed,
then set the local closed flag to the boolean True. -/
def Board.close (t : Transport) (b : BoardState) : OpResult BoardState Unit :=
  writeThenMirror
    (fetch_json t "PUT" ("/boards/" ++ b.id ++ "/closed") []
      [("value", Json.str "true")] none)
    b { b with closed := some (Json.bool true) }

/-- Board.open: one PUT of the string value false to /boards/id/closed,
then set the local closed flag to the boolean False. -/
def Board.open (t : Transport) (b : BoardState) : OpResult BoardState Unit :=
  writeThenMirror
    (fetch_json t "PUT" ("/boards/" ++ b.id ++ "/closed") []
      [("value", Json.str "false")] none)
    b { b with closed := some (Json.bool false) }

/-- List.close: one PUT of the string value true to /lists/id/closed,
then set the local closed flag to the boolean True. -/
def TrelloList.close (t : Transport) (l : ListState) : OpResult ListState Unit :=
  writeThenMirror
    (fetch_json t "PUT" ("/lists/" ++ l.id ++ "/closed") []
      [("value", Json.str "true")] none)
    l { l with closed := some (Json.bool true) }

/-- List.open: one PUT of the string value false to /lists/id/closed,
then set the local closed flag to the boolean False. -/
def TrelloList.open (t : Transport) (l : ListState) : OpResult ListState Unit :=
  writeThenMirror
    (fetch_json t "PUT" ("/lists/" ++ l.id ++ "/closed") []
      [("value", Json.str "false")] none)
    l { l with closed := some (Json.bool false) }

/-- C1: for the remote-state mutators Card.set_name, Card.set_due,
Board.close and List.open, the remote write happens before any local
update: when the transport call raises, the exception propagates and the
entity keeps its previous state; when it succeeds, the local field holds
the newly written value. -/
theorem spec_c1 (t : Transport) (c : CardState) (b : BoardState)
    (l : ListState) (nm : String) (d : PyDatetime) :
    ((Card.set_name t c nm).result =
      (Card.set_remote_attribute t c "name" (Json.str nm)).2.map
        (fun _ => ())) ∧
    (∀ e, (Card.set_name t c nm).result = Except.error e →
      (Card.set_name t c nm).state = c) ∧
    ((Card.set_name t c nm).result = Except.ok () →
      (Card.set_name t c nm).state = { c with name := nm }) ∧
    ((Card.set_due t c d).result =
      (Card.set_remote_attribute t c "due" (Json.str (strftimeYmd d))).2.map
        (fun _ => ())) ∧
    (∀ e, (Card.set_due t c d).result = Except.error e →
      (Card.set_due t c d).state = c) ∧
    ((Card.set_due t c d).result = Except.ok () →
      (Card.set_due t c d).state = { c with due := some (strftimeYmd d) }) ∧
    ((Board.close t b).result =
      (fetch_json t "PUT" ("/boards/" ++ b.id ++ "/closed") []
        [("value", Json.str "true")] none).2.map (fun _ => ())) ∧
    (∀ e, (Board.close t b).result = Except.error e →
      (Board.close t b).state = b) ∧
    ((Board.close t b).result = Except.ok () →
      (Board.close t b).state = { b with closed := some (Json.bool true) }) ∧
    ((TrelloList.open t l).result =
      (fetch_json t "PUT" ("/lists/" ++ l.id ++ "/closed") []
        [("value", Json.str "false")] none).2.map (fun _ => ())) ∧
    (∀ e, (TrelloList.open t l).result = Except.error e →
      (TrelloList.open t l).state = l) ∧
    ((TrelloList.open t l).result = Except.ok () →
      (TrelloList.open t l).state =
        { l with closed := some (Json.bool false) }) := by
  refine ⟨writeThenMirror_result _ _ _, fun e h => writeThenMirror_err _ _ _ e h,
    fun h => writeThenMirror_ok _ _ _ h,
    writeThenMirror_result _ _ _, fun e h => writeThenMirror_err _ _ _ e h,
    fun h => writeThenMirror_ok _ _ _ h,
    writeThenMirror_result _ _ _, fun e h => writeThenMirror_err _ _ _ e h,
    fun h => writeThenMirror_ok _ _ _ h,
    writeThenMirror_result _ _ _, fun e h => writeThenMirror_err _ _ _ e h,
    fun h => writeThenMirror_ok _ _ _ h⟩

/-- A card with a fetched list id and due date, used by concrete checks. -/
def sampleCard : CardState :=
  { emptyCard with
    id := "c1",
    name := "old",
    idList := some (Json.str "L0"),
    due := some "2001-01-01" }

/-- A transport that answers 200 with an empty object to everything. -/
def t200 : Transport := fun _ => ⟨200, "", Json.obj []⟩

/-- A transport that answers 500 to everything. -/
def t500 : Transport := fun _ => ⟨500, "boom", Json.null⟩

/-- Concrete instance of spec_c1: with a 200 transport set_name mirrors
the new name; with a 500 transport the card state is unchanged. -/
theorem spec_c1_witness :
    (Card.set_name t200 sampleCard "X").state =
      { sampleCard with name := "X" } ∧
    (Card.set_name t500 sampleCard "X").state = sampleCard := by
  constructor
  · exact (spec_c1 t200 sampleCard ⟨"b", "n", none, none, none⟩
      ⟨"l", "n", none⟩ "X" ⟨2020, 1, 2⟩).2.2.1 rfl
  · exact (spec_c1 t500 sampleCard ⟨"b", "n", none, none, none⟩
      ⟨"l", "n", none⟩ "X" ⟨2020, 1, 2⟩).2.1
      (TrelloError.resourceUnavailable
        ("boom" ++ " at " ++ apiUrl ("/cards/" ++ "c1" ++ "/" ++ "name")) 500)
      rfl

/-- C3 counterexample: the claim says that after a successful
change_list(L) the cached list id equals L; on a card cached with list id
L0, change_list to L1 succeeds yet the cached list id still holds L0. -/
theorem spec_c3_counterexample :
    (Card.change_list t200 sampleCard "L1").result = Except.ok () ∧
    (Card.change_list t200 sampleCard "L1").state.idList =
      some (Json.str "L0") ∧
    some (Json.str "L0") ≠ some (Json.str "L1") := by
  refine ⟨rfl, rfl, ?_⟩
  intro h
  injection h with h1
  injection h1 with h2
  exact absurd h2 (by decide)

/-- C3 amended: each of the eight Card semantic setters issues exactly one
remote field-update request; set_name, set_description, set_due and
set_closed then mirror the change into the local cached attribute, while
change_list, change_board, assign and comment leave the local cached state
entirely unchanged. -/
theorem spec_c3 (t : Transport) (c : CardState) (nm ds mid cmt li bi : String)
    (d : PyDatetime) (bl : Bool) (lio : Option String) :
    ((Card.set_name t c nm).calls = [setAttrReq c.id "name" (Json.str nm)]) ∧
    ((Card.set_name t c nm).result = Except.ok () →
      (Card.set_name t c nm).state = { c with name := nm }) ∧
    ((Card.set_description t c ds).calls =
      [setAttrReq c.id "desc" (Json.str ds)]) ∧
    ((Card.set_description t c ds).result = Except.ok () →
      (Card.set_description t c ds).state =
        { c with desc := some (Json.str ds) }) ∧
    ((Card.set_due t c d).calls =
      [setAttrReq c.id "due" (Json.str (strftimeYmd d))]) ∧
    ((Card.set_due t c d).result = Except.ok () →
      (Card.set_due t c d).state =
        { c with due := some (strftimeYmd d) }) ∧
    ((Card.set_closed t c bl).calls =
      [setAttrReq c.id "closed" (Json.bool bl)]) ∧
    ((Card.set_closed t c bl).result = Except.ok () →
      (Card.set_closed t c bl).state =
        { c with closed := some (Json.bool bl) }) ∧
    ((Card.change_list t c li).calls =
      [mkFetchReq "PUT" ("/cards/" ++ c.id ++ "/idList") []
        [("value", Json.str li)] none]) ∧
    ((Card.change_list t c li).state = c) ∧
    ((Card.change_board t c bi lio).calls =
      [mkFetchReq "PUT" ("/cards/" ++ c.id ++ "/idBoard") []
        (("value", Json.str bi) ::
          (match lio with
           | some l => [("idList", Json.str l)]
           | none => [])) none]) ∧
    ((Card.change_board t c bi lio).state = c) ∧
    ((Card.assign t c mid).calls =
      [mkFetchReq "POST" ("/cards/" ++ c.id ++ "/members") []
        [("value", Json.str mid)] none]) ∧
    ((Card.assign t c mid).state = c) ∧
    ((Card.comment t c cmt).calls =
      [mkFetchReq "POST" ("/cards/" ++ c.id ++ "/actions/comments") []
        [("text", Json.str cmt)] none]) ∧
    ((Card.comment t c cmt).state = c) := by
  have hsame : ∀ (pr : Request × Except TrelloError Json),
      (writeThenMirror pr c c).state = c := by
    intro pr
    rcases pr with ⟨req, r⟩
    cases r <;> simp [writeThenMirror]
  refine ⟨writeThenMirror_calls _ _ _, fun h => writeThenMirror_ok _ _ _ h,
    writeThenMirror_calls _ _ _, fun h => writeThenMirror_ok _ _ _ h,
    writeThenMirror_calls _ _ _, fun h => writeThenMirror_ok _ _ _ h,
    writeThenMirror_calls _ _ _, fun h => writeThenMirror_ok _ _ _ h,
    writeThenMirror_calls _ _ _, hsame _,
    writeThenMirror_calls _ _ _, hsame _,
    writeThenMirror_calls _ _ _, hsame _,
    writeThenMirror_calls _ _ _, hsame _⟩

/-- Concrete instance of spec_c3: on a 200 transport, set_description
mirrors locally and assign issues exactly its one POST request. -/
theorem spec_c3_witness :
    (Card.set_description t200 sampleCard "D").state =
      { sampleCard with desc := some (Json.str "D") } ∧
    (Card.assign t200 sampleCard "m9").calls =
      [mkFetchReq "POST" ("/cards/" ++ sampleCard.id ++ "/members") []
        [("value", Json.str "m9")] none] := by
  constructor
  · exact (spec_c3 t200 sampleCard "X" "D" "m9" "hi" "L1" "B1"
      ⟨2020, 1, 2⟩ true none).2.2.2.1 rfl
  · exact (spec_c3 t200 sampleCard "X" "D" "m9" "hi" "L1" "B1"
      ⟨2020, 1, 2⟩ true none).2.2.2.2.2.2.2.2.2.2.2.2.1

/-- Credential state of a TrelloClient. -/
structure ClientState where
  api_key : Option String
  api_secret : Option String
  resource_owner_key : Option String
  resource_owner_secret : Option String
deriving Repr

/-- The Python expression a or b on optional strings: the left operand
when it is truthy (present and non-empty), otherwise the right operand. -/
def pyOrStr : Option String → Option String → Option String
  | some s, b => if s.isEmpty then b else some s
  | none, b => b

/-- State of a WebHook object; fields taken from hook JSON stay raw. -/
structure WebHookState where
  id : Json
  desc : Json
  id_model : Json
  callback_url : Json
  active : Json
  token : String
deriving Repr

/-- Value create_hook evaluates to on a 200 response (the WebHook it
built) or on any other status (the Python literal False). -/
inductive CreateHookResult where
  | hook (w : WebHookState) : CreateHookResult
  | failed : CreateHookResult
deriving Repr

/-- TrelloClient._existing_hook_objs: build a WebHook from every hook
dictionary in the listing (KeyError on a missing field propagates). -/
def existing_hook_objs (hooks : Json) (token : String) :
    Except TrelloError (List WebHookState) :=
  (asArr hooks).bind fun hs =>
  hs.mapM fun h =>
    (jget h "id").bind fun hid =>
    (jget h "description").bind fun hdesc =>
    (jget h "idModel").bind fun hmodel =>
    (jget h "callbackURL").bind fun hcb =>
    (jget h "active").map fun hact =>
    { id := hid, desc := hdesc, id_model := hmodel, callback_url := hcb,
      active := hact, token := token }

/-- TrelloClient.list_hooks: take the token argument or the stored token;
raise TokenError before any request when neither is available, otherwise
GET the webhook listing for that token. -/
def TrelloClient.list_hooks (t : Transport) (cl : ClientState)
    (token : Option String) :
    List Request × Except TrelloError (List WebHookState) :=
  match pyOrStr token cl.resource_owner_key with
  | none =>
      ([], Except.error (TrelloError.tokenError
        "You need to pass an auth token in to list hooks."))
  | some tok =>
      match fetch_json t "GET" ("/tokens/" ++ tok ++ "/webhooks") [] [] none with
      | (req, Except.error e) => ([req], Except.error e)
      | (req, Except.ok j) => ([req], existing_hook_objs j tok)

/-- Python None maps to JSON null, a present string to a JSON string. -/
def optionStrJson : Option String → Json
  | some s => Json.str s
  | none => Json.null

/-- The request create_hook posts directly through the requests package:
form data, no signing-independent headers, full URL on the trello.com
origin. -/
def hookReq (tok cb im : String) (d : Option String) : Request :=
  { http_method := "POST"
    url := "https://trello.com/1/tokens/" ++ tok ++ "/webhooks/"
    headers := []
    query_params := []
    data := some [("callbackURL", Json.str cb), ("idModel", Json.str im),
      ("description", optionStrJson d)]
    files := none }

/-- TrelloClient.create_hook: take the token argument or the stored token;
raise TokenError before any request when neither is available; otherwise
POST directly (not through fetch_json): a 200 response yields the built
WebHook, any other status returns the Python literal False. -/
def TrelloClient.create_hook (t : Transport) (cl : ClientState)
    (callback_url id_model : String) (desc : Option String)
    (token : Option String) :
    List Request × Except TrelloError CreateHookResult :=
  match pyOrStr token cl.resource_owner_key with
  | none =>
      ([], Except.error (TrelloError.tokenError
        "You need to pass an auth token in to create a hook."))
  | some tok =>
      let req := hookReq tok callback_url id_model desc
      let response := t req
      if response.status_code == 200 then
        match getField response.body "id" with
        | some hid =>
            ([req], Except.ok (CreateHookResult.hook
              { id := hid, desc := optionStrJson desc,
                id_model := Json.str id_model,
                callback_url := Json.str callback_url,
                active := Json.bool true, token := tok }))
        | none => ([req], Except.error (TrelloError.exception "KeyError: id"))
      else
        ([req], Except.ok CreateHookResult.failed)

/-- C7: list_hooks and create_hook raise TokenError before any network
call when no token is passed and none is stored; when a token is available
from either source they issue their request with that token in the URL. -/
theorem spec_c7 (t : Transport) (cl : ClientState) (cb im : String)
    (d : Option String) (tokArg : Option String) (tok : String) :
    (tokArg = none → cl.resource_owner_key = none →
      TrelloClient.list_hooks t cl tokArg =
        ([], Except.error (TrelloError.tokenError
          "You need to pass an auth token in to list hooks.")) ∧
      TrelloClient.create_hook t cl cb im d tokArg =
        ([], Except.error (TrelloError.tokenError
          "You need to pass an auth token in to create a hook."))) ∧
    (pyOrStr tokArg cl.resource_owner_key = some tok →
      (TrelloClient.list_hooks t cl tokArg).1 =
        [mkFetchReq "GET" ("/tokens/" ++ tok ++ "/webhooks") [] [] none] ∧
      (TrelloClient.create_hook t cl cb im d tokArg).1 =
        [hookReq tok cb im d]) := by
  constructor
  · intro h1 h2
    subst h1
    constructor
    · simp [TrelloClient.list_hooks, pyOrStr, h2]
    · simp [TrelloClient.create_hook, pyOrStr, h2]
  · intro h
    constructor
    · unfold TrelloClient.list_hooks
      rw [h]
      rcases hf : fetch_json t "GET" ("/tokens/" ++ tok ++ "/webhooks")
          [] [] none with ⟨req, r⟩
      have hreq : req = mkFetchReq "GET" ("/tokens/" ++ tok ++ "/webhooks")
          [] [] none := by
        have := congrArg Prod.fst hf
        simpa [fetch_json] using this.symm
      cases r <;> simp [hf, hreq]
    · unfold TrelloClient.create_hook
      rw [h]
      by_cases hs : (t (hookReq tok cb im d)).status_code == 200
      · simp only [hs, if_pos]
        cases hg : getField (t (hookReq tok cb im d)).body "id" <;> simp
      · simp [hs]

/-- Concrete instance of spec_c7: with no token anywhere both operations
fail with TokenError and no request; with a stored token list_hooks
issues the token-scoped listing request. -/
theorem spec_c7_witness :
    TrelloClient.list_hooks t200 ⟨some "k", none, none, none⟩ none =
      ([], Except.error (TrelloError.tokenError
        "You need to pass an auth token in to list hooks.")) ∧
    TrelloClient.create_hook t200 ⟨some "k", none, none, none⟩ "cb" "m"
        none none =
      ([], Except.error (TrelloError.tokenError
        "You need to pass an auth token in to create a hook.")) ∧
    (TrelloClient.list_hooks t200 ⟨some "k", none, some "tk", none⟩ none).1 =
      [mkFetchReq "GET" ("/tokens/" ++ "tk" ++ "/webhooks") [] [] none] := by
  refine ⟨?_, ?_, ?_⟩
  · exact ((spec_c7 t200 ⟨some "k", none, none, none⟩ "cb" "m" none none
      "tk").1 rfl rfl).1
  · exact ((spec_c7 t200 ⟨some "k", none, none, none⟩ "cb" "m" none none
      "tk").1 rfl rfl).2
  · exact ((spec_c7 t200 ⟨some "k", none, some "tk", none⟩ "cb" "m" none none
      "tk").2 rfl).1

/-- A transport that answers 404 to everything. -/
def t404 : Transport := fun _ => ⟨404, "not found", Json.null⟩

/-- C4 counterexample: the claim says a non-2xx response always propagates
as a typed failure, in particular for create_hook; with a stored token and
a transport answering 404, create_hook returns the Python literal False
instead of raising. -/
theorem spec_c4_counterexample :
    (TrelloClient.create_hook t404 ⟨some "k", none, some "tk", none⟩
      "cb" "m" none none).2 = Except.ok CreateHookResult.failed := rfl

/-- Every failure fetch_json produces is one of the two typed kinds,
carrying the response text, the target URL and the numeric status. -/
theorem fetchOutcome_error (t : Transport) (req : Request) (e : TrelloError)
    (h : fetchOutcome t req = Except.error e) :
    e = TrelloError.unauthorized ((t req).text ++ " at " ++ req.url)
          (t req).status_code ∨
    e = TrelloError.resourceUnavailable ((t req).text ++ " at " ++ req.url)
          (t req).status_code := by
  simp only [fetchOutcome] at h
  split_ifs at h with h1 h2
  · left
    injection h with h3
    exact h3.symm
  · right
    injection h with h3
    exact h3.symm

/-- C4 amended: fetch_json converts 401 into Unauthorized and every other
non-200 status into ResourceUnavailable, both carrying status, response
text and URL, and these are the only failures it produces; operations
built on fetch_json (Board.close, Card.set_name, list_hooks) propagate
them to the immediate caller unchanged; create_hook however bypasses
fetch_json and on a non-200 response returns False without raising. -/
theorem spec_c4 (t : Transport) (m p : String)
    (qp pa : List (String × Json)) (f : Option FilesPayload)
    (b : BoardState) (c : CardState) (nm : String) (cl : ClientState)
    (cb im : String) (d : Option String) (tokArg : Option String)
    (tok : String) :
    (∀ e, (fetch_json t m p qp pa f).2 = Except.error e →
      e = TrelloError.unauthorized
            ((t (mkFetchReq m p qp pa f)).text ++ " at " ++ apiUrl p)
            (t (mkFetchReq m p qp pa f)).status_code ∨
      e = TrelloError.resourceUnavailable
            ((t (mkFetchReq m p qp pa f)).text ++ " at " ++ apiUrl p)
            (t (mkFetchReq m p qp pa f)).status_code) ∧
    (∀ e, (fetch_json t "PUT" ("/boards/" ++ b.id ++ "/closed") []
        [("value", Json.str "true")] none).2 = Except.error e →
      (Board.close t b).result = Except.error e) ∧
    (∀ e, (Card.set_remote_attribute t c "name" (Json.str nm)).2 =
        Except.error e →
      (Card.set_name t c nm).result = Except.error e) ∧
    (∀ e, pyOrStr tokArg cl.resource_owner_key = some tok →
      (fetch_json t "GET" ("/tokens/" ++ tok ++ "/webhooks") [] []
        none).2 = Except.error e →
      (TrelloClient.list_hooks t cl tokArg).2 = Except.error e) ∧
    (pyOrStr tokArg cl.resource_owner_key = some tok →
      (t (hookReq tok cb im d)).status_code ≠ 200 →
      (TrelloClient.create_hook t cl cb im d tokArg).2 =
        Except.ok CreateHookResult.failed) := by
  refine ⟨?_, ?_, ?_, ?_, ?_⟩
  · intro e he
    simp only [fetch_json] at he
    exact fetchOutcome_error t (mkFetchReq m p qp pa f) e he
  · intro e he
    rw [Board.close, writeThenMirror_result, he]
    rfl
  · intro e he
    rw [Card.set_name, writeThenMirror_result, he]
    rfl
  · intro e htok he
    unfold TrelloClient.list_hooks
    rw [htok]
    rcases hf : fetch_json t "GET" ("/tokens/" ++ tok ++ "/webhooks")
        [] [] none with ⟨req, r⟩
    rw [hf] at he
    simp only [hf]
    cases r with
    | error e2 =>
        simp only [] at he
        injection he with he2
        simp [he2]
    | ok j => simp at he
  · intro htok hs
    unfold TrelloClient.create_hook
    rw [htok]
    simp only []
    have hs2 : ((t (hookReq tok cb im d)).status_code == 200) = false :=
      beq_eq_false_iff_ne.mpr hs
    simp [hs2]

/-- Concrete instance of spec_c4: a 404 on the board-close endpoint
propagates as the ResourceUnavailable failure of fetch_json unchanged,
and create_hook on 404 returns False. -/
theorem spec_c4_witness :
    (Board.close t404 ⟨"b7", "board", none, none, none⟩).result =
      Except.error (TrelloError.resourceUnavailable
        ("not found" ++ " at " ++ apiUrl ("/boards/" ++ "b7" ++ "/closed"))
        404) ∧
    (TrelloClient.create_hook t404 ⟨none, none, some "tk", none⟩ "cb" "m"
      none none).2 = Except.ok CreateHookResult.failed := by
  constructor
  · exact (spec_c4 t404 "GET" "/x" [] [] none ⟨"b7", "board", none, none, none⟩
      emptyCard "nm" ⟨none, none, some "tk", none⟩ "cb" "m" none none
      "tk").2.1 _ rfl
  · exact (spec_c4 t404 "GET" "/x" [] [] none ⟨"b7", "board", none, none, none⟩
      emptyCard "nm" ⟨none, none, some "tk", none⟩ "cb" "m" none none
      "tk").2.2.2.2 rfl (by decide)

/-- Card._post_remote_data: one POST to /cards/id/attribute carrying the
keyword arguments as post arguments and an optional file payload. -/
def Card.post_remote_data (t : Transport) (c : CardState) (attr : String)
    (files : Option FilesPayload) (kwargs : List (String × Json)) :
    Request × Except TrelloError Json :=
  fetch_json t "POST" ("/cards/" ++ c.id ++ "/" ++ attr) [] kwargs files

/-- Card.attach: require exactly one of a file payload or a URL; raise a
validation Exception before any request when both or neither are given;
otherwise POST the attachment (multipart for a file, post arguments for a
URL). -/
def Card.attach (t : Transport) (c : CardState) (name mimeType : Option String)
    (file : Option String) (url : Option String) : OpResult CardState Unit :=
  if (file.isSome && url.isSome) || (file.isNone && url.isNone) then
    ⟨c, [], Except.error (TrelloError.exception
      "Please provide either a file or url, and not both!")⟩
  else
    match file with
    | some fc =>
        writeThenMirror
          (Card.post_remote_data t c "attachments"
            (some { name := name, content := fc, mimeType := mimeType }) [])
          c c
    | none =>
        writeThenMirror
          (Card.post_remote_data t c "attachments" none
            [("name", optionStrJson name), ("mimeType", optionStrJson mimeType),
              ("url", optionStrJson url)])
          c c


/-- Helper: a 200 response makes fetchOutcome return the parsed body. -/
theorem fetchOutcome_of_200 (t : Transport) (req : Request)
    (h : (t req).status_code = 200) :
    fetchOutcome t req = Except.ok (t req).body := by
  simp [fetchOutcome, h]

/-- The multipart request attach issues for a file payload. -/
def attachFileReq (cid : String) (name mimeType : Option String)
    (fc : String) : Request :=
  mkFetchReq "POST" ("/cards/" ++ cid ++ "/" ++ "attachments") [] []
    (some { name := name, content := fc, mimeType := mimeType })

/-- The plain POST request attach issues for a URL. -/
def attachUrlReq (cid : String) (name mimeType : Option String)
    (u : String) : Request :=
  mkFetchReq "POST" ("/cards/" ++ cid ++ "/" ++ "attachments") []
    [("name", optionStrJson name), ("mimeType", optionStrJson mimeType),
      ("url", Json.str u)] none

/-- C6: Card.attach proceeds past validation exactly when one of file and
url is given: with a file only or a URL only it issues its one POST (and
succeeds on a 200 response); with both or with neither it raises the
validation Exception with zero transport calls issued. -/
theorem spec_c6 (t : Transport) (c : CardState) (name mimeType : Option String)
    (fc u : String) :
    (∀ f0 u0, f0.isSome && u0.isSome = true →
      Card.attach t c name mimeType f0 u0 =
        ⟨c, [], Except.error (TrelloError.exception
          "Please provide either a file or url, and not both!")⟩) ∧
    (Card.attach t c name mimeType none none =
      ⟨c, [], Except.error (TrelloError.exception
        "Please provide either a file or url, and not both!")⟩) ∧
    ((Card.attach t c name mimeType (some fc) none).calls =
      [attachFileReq c.id name mimeType fc]) ∧
    ((t (attachFileReq c.id name mimeType fc)).status_code = 200 →
      (Card.attach t c name mimeType (some fc) none).result =
        Except.ok ()) ∧
    ((Card.attach t c name mimeType none (some u)).calls =
      [attachUrlReq c.id name mimeType u]) ∧
    ((t (attachUrlReq c.id name mimeType u)).status_code = 200 →
      (Card.attach t c name mimeType none (some u)).result =
        Except.ok ()) := by
  have hredf : Card.attach t c name mimeType (some fc) none =
      writeThenMirror (Card.post_remote_data t c "attachments"
        (some { name := name, content := fc, mimeType := mimeType }) [])
        c c := by
    simp [Card.attach]
  have hredu : Card.attach t c name mimeType none (some u) =
      writeThenMirror (Card.post_remote_data t c "attachments" none
        [("name", optionStrJson name), ("mimeType", optionStrJson mimeType),
          ("url", Json.str u)]) c c := by
    simp [Card.attach, optionStrJson]
  refine ⟨?_, ?_, ?_, ?_, ?_, ?_⟩
  · intro f0 u0 h
    rcases f0 with _ | f1
    · simp at h
    · rcases u0 with _ | u1
      · simp at h
      · simp [Card.attach]
  · simp [Card.attach]
  · rw [hredf]
    exact writeThenMirror_calls _ _ _
  · intro hs
    rw [hredf, writeThenMirror_result]
    have h2 : (Card.post_remote_data t c "attachments"
        (some { name := name, content := fc, mimeType := mimeType }) []).2 =
        Except.ok (t (attachFileReq c.id name mimeType fc)).body := by
      simp only [Card.post_remote_data, fetch_json]
      exact fetchOutcome_of_200 t _ hs
    rw [h2]
    rfl
  · rw [hredu]
    exact writeThenMirror_calls _ _ _
  · intro hs
    rw [hredu, writeThenMirror_result]
    have h2 : (Card.post_remote_data t c "attachments" none
        [("name", optionStrJson name), ("mimeType", optionStrJson mimeType),
          ("url", Json.str u)]).2 =
        Except.ok (t (attachUrlReq c.id name mimeType u)).body := by
      simp only [Card.post_remote_data, fetch_json]
      exact fetchOutcome_of_200 t _ hs
    rw [h2]
    rfl

/-- Concrete instance of spec_c6: attaching both a file and a URL, or
neither, raises the validation failure with no request; attaching only a
URL on a 200 transport succeeds. -/
theorem spec_c6_witness :
    Card.attach t200 sampleCard none none (some "bytes") (some "hu") =
      ⟨sampleCard, [], Except.error (TrelloError.exception
        "Please provide either a file or url, and not both!")⟩ ∧
    Card.attach t200 sampleCard none none none none =
      ⟨sampleCard, [], Except.error (TrelloError.exception
        "Please provide either a file or url, and not both!")⟩ ∧
    (Card.attach t200 sampleCard none none none (some "hu")).result =
      Except.ok () := by
  refine ⟨?_, ?_, ?_⟩
  · exact (spec_c6 t200 sampleCard none none "bytes" "hu").1
      (some "bytes") (some "hu") rfl
  · exact (spec_c6 t200 sampleCard none none "bytes" "hu").2.1
  · exact (spec_c6 t200 sampleCard none none "bytes" "hu").2.2.2.2.2 rfl

/-- One step of the item lookup comprehension in set_checklist_item and
rename_checklist_item: does this item carry exactly this name (reading the
name key raises KeyError when absent, as in Python). -/
def nameMatches (nm : String) (it : Json) : Bool :=
  match getField it "name" with
  | some v => Json.beq v (Json.str nm)
  | none => false

/-- The list comprehension locating checklist items by name: indices (from
i upward) of the items whose name equals nm; reading a missing name key
raises. -/
def matchIdxGo (nm : String) : Nat → List Json → Except TrelloError (List Nat)
  | _, [] => Except.ok []
  | i, it :: rest =>
      (jget it "name").bind fun v =>
      (matchIdxGo nm (i + 1) rest).map fun tail =>
      if Json.beq v (Json.str nm) then i :: tail else tail

/-- Total description of matchIdxGo on well-formed items. -/
def matchIdxsSpec (nm : String) : Nat → List Json → List Nat
  | _, [] => []
  | i, it :: rest =>
      if nameMatches nm it then i :: matchIdxsSpec nm (i + 1) rest
      else matchIdxsSpec nm (i + 1) rest

theorem matchIdxGo_ok (nm : String) : ∀ (items : List Json) (i : Nat),
    (∀ it ∈ items, (getField it "name").isSome) →
    matchIdxGo nm i items = Except.ok (matchIdxsSpec nm i items) := by
  intro items
  induction items with
  | nil => intro i h; rfl
  | cons it rest ih =>
      intro i h
      rcases hv : getField it "name" with _ | v
      · exact absurd (h it (by simp)) (by simp [hv])
      · have ih2 := ih (i + 1) (fun x hx => h x (by simp [hx]))
        simp [matchIdxGo, matchIdxsSpec, jget, hv, nameMatches, ih2,
          Except.bind, Except.map]

theorem matchIdxsSpec_length (nm : String) : ∀ (items : List Json) (i : Nat),
    (matchIdxsSpec nm i items).length =
      (items.filter (nameMatches nm)).length := by
  intro items
  induction items with
  | nil => intro i; rfl
  | cons it rest ih =>
      intro i
      by_cases hm : nameMatches nm it <;>
        simp [matchIdxsSpec, List.filter, hm, ih (i + 1)]

/-- The URL set_checklist_item and rename_checklist_item address. -/
def checkItemPath (cardId clId itemId : String) : String :=
  "/cards/" ++ cardId ++ "/checklist/" ++ clId ++ "/checkItem/" ++ itemId

/-- Checklist.set_checklist_item: locate the item by exact name; on zero
or several matches the ValueError of the unpacking is swallowed and the
method returns None without any request; on exactly one match, PUT the
new state, store the returned item dictionary (with its checked flag set)
back at the same position. -/
def Checklist.set_checklist_item (t : Transport) (cl : ChecklistState)
    (nm : String) (checked : Bool) : OpResult ChecklistState (Option Json) :=
  match matchIdxGo nm 0 cl.items with
  | Except.error e => ⟨cl, [], Except.error e⟩
  | Except.ok idxs =>
      match idxs with
      | [ix] =>
          match cl.trello_card with
          | none => ⟨cl, [], Except.error (TrelloError.exception
              "TypeError: trello_card is None")⟩
          | some cardId =>
              match (jget (cl.items.getD ix Json.null) "id").bind asStr with
              | Except.error e => ⟨cl, [], Except.error e⟩
              | Except.ok itemId =>
                  match fetch_json t "PUT" (checkItemPath cardId cl.id itemId)
                      [] [("state", Json.str
                        (if checked then "complete" else "incomplete"))]
                      none with
                  | (req, Except.error e) => ⟨cl, [req], Except.error e⟩
                  | (req, Except.ok j) =>
                      match setFieldE j "checked" (Json.bool checked) with
                      | Except.error e => ⟨cl, [req], Except.error e⟩
                      | Except.ok j2 =>
                          ⟨{ cl with items := cl.items.set ix j2 }, [req],
                            Except.ok (some j2)⟩
      | _ => ⟨cl, [], Except.ok none⟩

/-- Checklist.rename_checklist_item: same lookup as set_checklist_item;
on exactly one match, PUT the new name and store the raw returned item
dictionary back at the same position. -/
def Checklist.rename_checklist_item (t : Transport) (cl : ChecklistState)
    (nm new_name : String) : OpResult ChecklistState (Option Json) :=
  match matchIdxGo nm 0 cl.items with
  | Except.error e => ⟨cl, [], Except.error e⟩
  | Except.ok idxs =>
      match idxs with
      | [ix] =>
          match cl.trello_card with
          | none => ⟨cl, [], Except.error (TrelloError.exception
              "TypeError: trello_card is None")⟩
          | some cardId =>
              match (jget (cl.items.getD ix Json.null) "id").bind asStr with
              | Except.error e => ⟨cl, [], Except.error e⟩
              | Except.ok itemId =>
                  match fetch_json t "PUT" (checkItemPath cardId cl.id itemId)
                      [] [("name", Json.str new_name)] none with
                  | (req, Except.error e) => ⟨cl, [req], Except.error e⟩
                  | (req, Except.ok j) =>
                      ⟨{ cl with items := cl.items.set ix j }, [req],
                        Except.ok (some j)⟩
      | _ => ⟨cl, [], Except.ok none⟩

/-- C5: on a checklist whose cached items all carry a name key, both
set_checklist_item and rename_checklist_item return None with no request
and an unchanged item sequence whenever the number of items with the given
exact name differs from one; when exactly one item matches they issue one
PUT for that item and store the response back at the same position. -/
theorem spec_c5 (t : Transport) (cl : ChecklistState) (nm new_name : String)
    (checked : Bool) (ix : Nat) (cid iid txt : String)
    (fs : List (String × Json))
    (hAll : ∀ it ∈ cl.items, (getField it "name").isSome) :
    ((cl.items.filter (nameMatches nm)).length ≠ 1 →
      Checklist.set_checklist_item t cl nm checked =
        ⟨cl, [], Except.ok none⟩ ∧
      Checklist.rename_checklist_item t cl nm new_name =
        ⟨cl, [], Except.ok none⟩) ∧
    ((cl.items.filter (nameMatches nm)).length = 1 →
      (matchIdxsSpec nm 0 cl.items).length = 1) ∧
    (matchIdxsSpec nm 0 cl.items = [ix] →
      cl.trello_card = some cid →
      getField (cl.items.getD ix Json.null) "id" = some (Json.str iid) →
      t (mkFetchReq "PUT" (checkItemPath cid cl.id iid) []
          [("state", Json.str (if checked then "complete" else "incomplete"))]
          none) = ⟨200, txt, Json.obj fs⟩ →
      Checklist.set_checklist_item t cl nm checked =
        ⟨{ cl with
            items := cl.items.set ix
              (Json.obj (setFieldList fs "checked" (Json.bool checked))) },
          [mkFetchReq "PUT" (checkItemPath cid cl.id iid) []
            [("state", Json.str
              (if checked then "complete" else "incomplete"))] none],
          Except.ok (some (Json.obj
            (setFieldList fs "checked" (Json.bool checked))))⟩) ∧
    (matchIdxsSpec nm 0 cl.items = [ix] →
      cl.trello_card = some cid →
      getField (cl.items.getD ix Json.null) "id" = some (Json.str iid) →
      t (mkFetchReq "PUT" (checkItemPath cid cl.id iid) []
          [("name", Json.str new_name)] none) = ⟨200, txt, Json.obj fs⟩ →
      Checklist.rename_checklist_item t cl nm new_name =
        ⟨{ cl with
            items := cl.items.set ix (Json.obj fs) },
          [mkFetchReq "PUT" (checkItemPath cid cl.id iid) []
            [("name", Json.str new_name)] none],
          Except.ok (some (Json.obj fs))⟩) := by
  have hm := matchIdxGo_ok nm cl.items 0 hAll
  have hlen := matchIdxsSpec_length nm cl.items 0
  refine ⟨?_, ?_, ?_, ?_⟩
  · intro hcount
    rcases hsp : matchIdxsSpec nm 0 cl.items with _ | ⟨x, _ | ⟨y, rest⟩⟩
    · rw [hsp] at hm
      constructor
      · simp [Checklist.set_checklist_item, hm]
      · simp [Checklist.rename_checklist_item, hm]
    · exact absurd (by rw [← hlen, hsp]; rfl) hcount
    · rw [hsp] at hm
      constructor
      · simp [Checklist.set_checklist_item, hm]
      · simp [Checklist.rename_checklist_item, hm]
  · intro h1
    rw [hlen]
    exact h1
  · intro hsp hcard hid hresp
    rw [hsp] at hm
    unfold Checklist.set_checklist_item
    rw [hm, hcard]
    simp only [jget, hid, asStr, Except.bind, fetch_json, fetchOutcome,
      hresp, setFieldE]
    rfl
  · intro hsp hcard hid hresp
    rw [hsp] at hm
    unfold Checklist.rename_checklist_item
    rw [hm, hcard]
    simp only [jget, hid, asStr, Except.bind, fetch_json, fetchOutcome,
      hresp, setFieldE]
    rfl

/-- A concrete checklist with two uniquely named items. -/
def wcl : ChecklistState :=
  { trello_card := some "crd", id := "cl1", name := Json.str "CL",
    items := [Json.obj [("id", Json.str "i1"), ("name", Json.str "a")],
      Json.obj [("id", Json.str "i2"), ("name", Json.str "b")]] }

/-- A transport answering 200 with a fixed item dictionary. -/
def tcheck : Transport := fun _ => ⟨200, "resp", Json.obj [("id", Json.str "i2")]⟩

/-- Concrete instance of spec_c5: a missing name returns None with no
request and unchanged items; the unique name b issues one PUT and stores
the response (with its checked flag) at position 1. -/
theorem spec_c5_witness :
    Checklist.set_checklist_item t200 wcl "zz" true =
      ⟨wcl, [], Except.ok none⟩ ∧
    Checklist.rename_checklist_item t200 wcl "zz" "w" =
      ⟨wcl, [], Except.ok none⟩ ∧
    Checklist.set_checklist_item tcheck wcl "b" true =
      ⟨{ wcl with
          items := wcl.items.set 1
            (Json.obj (setFieldList [("id", Json.str "i2")] "checked"
              (Json.bool true))) },
        [mkFetchReq "PUT" (checkItemPath "crd" "cl1" "i2") []
          [("state", Json.str (if true then "complete" else "incomplete"))]
          none],
        Except.ok (some (Json.obj (setFieldList [("id", Json.str "i2")]
          "checked" (Json.bool true))))⟩ := by
  have hAll : ∀ it ∈ wcl.items, (getField it "name").isSome := by decide
  refine ⟨?_, ?_, ?_⟩
  · exact ((spec_c5 t200 wcl "zz" "w" true 0 "" "" "" [] hAll).1
      (by decide)).1
  · exact ((spec_c5 t200 wcl "zz" "w" true 0 "" "" "" [] hAll).1
      (by decide)).2
  · exact (spec_c5 tcheck wcl "b" "w" true 1 "crd" "i2" "resp"
      [("id", Json.str "i2")] hAll).2.2.1 rfl rfl rfl rfl

/-- Card.from_json: raise before building anything when the id key is
absent; otherwise build the card from the supplied fields only (id, name,
desc with empty default, closed, url, idMembers, idLabels, labels).  The
first component is the list of transport requests issued: the constructor
performs none. -/
def Card.from_json (trello_list : ListState) (json_obj : Json) :
    List Request × Except TrelloError CardState :=
  if (getField json_obj "id").isNone then
    ([], Except.error (TrelloError.exception "key id is not in json_obj"))
  else
    ([],
      (jget json_obj "id").bind fun idv =>
      (asStr idv).bind fun ids =>
      (jget json_obj "name").bind fun namev =>
      (asStr namev).bind fun names =>
      (jget json_obj "closed").bind fun closedv =>
      (jget json_obj "url").bind fun urlv =>
      (jget json_obj "idMembers").bind fun memv =>
      (jget json_obj "idLabels").bind fun labv =>
      (jget json_obj "labels").map fun labelsv =>
      { emptyCard with
        id := ids,
        name := names,
        desc := some (getFieldD json_obj "desc" (Json.str "")),
        closed := some closedv,
        url := some urlv,
        member_ids := some memv,
        label_ids := some labv,
        labels := some labelsv })

/-- C9: Card.from_json raises before constructing anything when the id
key is absent; when id is present (and the supplied fields are readable)
it builds the card from the supplied fields only, issuing zero transport
requests in all cases. -/
theorem spec_c9 (l : ListState) (fs : List (String × Json))
    (ids nms : String) (closedv urlv memv labv labelsv : Json) :
    (lookupField fs "id" = none →
      Card.from_json l (Json.obj fs) =
        ([], Except.error
          (TrelloError.exception "key id is not in json_obj"))) ∧
    ((Card.from_json l (Json.obj fs)).1 = []) ∧
    (lookupField fs "id" = some (Json.str ids) →
      lookupField fs "name" = some (Json.str nms) →
      lookupField fs "closed" = some closedv →
      lookupField fs "url" = some urlv →
      lookupField fs "idMembers" = some memv →
      lookupField fs "idLabels" = some labv →
      lookupField fs "labels" = some labelsv →
      Card.from_json l (Json.obj fs) =
        ([], Except.ok
          { emptyCard with
            id := ids,
            name := nms,
            desc := some (getFieldD (Json.obj fs) "desc" (Json.str "")),
            closed := some closedv,
            url := some urlv,
            member_ids := some memv,
            label_ids := some labv,
            labels := some labelsv })) := by
  refine ⟨?_, ?_, ?_⟩
  · intro h
    simp [Card.from_json, getField, h]
  · by_cases h : (getField (Json.obj fs) "id").isNone <;>
      simp [Card.from_json, h]
  · intro hid hname hclosed hurl hmem hlab hlabels
    simp [Card.from_json, getField, jget, asStr, hid, hname, hclosed, hurl,
      hmem, hlab, hlabels, Except.bind, Except.map]

/-- Concrete instance of spec_c9: a JSON object without id raises the
key error; a minimal full object builds the card with exactly the
supplied fields and no transport call. -/
theorem spec_c9_witness :
    Card.from_json ⟨"l1", "todo", none⟩ (Json.obj [("name", Json.str "x")]) =
      ([], Except.error
        (TrelloError.exception "key id is not in json_obj")) ∧
    Card.from_json ⟨"l1", "todo", none⟩ (Json.obj
        [("id", Json.str "c9"), ("name", Json.str "x"),
          ("closed", Json.bool false), ("url", Json.str "http://c"),
          ("idMembers", Json.arr []), ("idLabels", Json.arr []),
          ("labels", Json.arr [])]) =
      ([], Except.ok
        { emptyCard with
          id := "c9",
          name := "x",
          desc := some (getFieldD (Json.obj
            [("id", Json.str "c9"), ("name", Json.str "x"),
              ("closed", Json.bool false), ("url", Json.str "http://c"),
              ("idMembers", Json.arr []), ("idLabels", Json.arr []),
              ("labels", Json.arr [])]) "desc" (Json.str "")),
          closed := some (Json.bool false),
          url := some (Json.str "http://c"),
          member_ids := some (Json.arr []),
          label_ids := some (Json.arr []),
          labels := some (Json.arr []) }) := by
  constructor
  · exact (spec_c9 ⟨"l1", "todo", none⟩ [("name", Json.str "x")] "" ""
      Json.null Json.null Json.null Json.null Json.null).1 rfl
  · exact (spec_c9 ⟨"l1", "todo", none⟩
      [("id", Json.str "c9"), ("name", Json.str "x"),
        ("closed", Json.bool false), ("url", Json.str "http://c"),
        ("idMembers", Json.arr []), ("idLabels", Json.arr []),
        ("labels", Json.arr [])] "c9" "x" (Json.bool false)
      (Json.str "http://c") (Json.arr []) (Json.arr [])
      (Json.arr [])).2.2 rfl rfl rfl rfl rfl rfl rfl

/-- One comparison of the Checklist constructor loop: does this
check-item-state dictionary mark this item complete (reading the keys
raises KeyError when absent; the state key is only read when the ids
match, as the Python and-operator short-circuits). -/
def Checklist.checkStep (cis item : Json) : Except TrelloError Bool :=
  (jget cis "idCheckItem").bind fun a =>
  (jget item "id").bind fun b =>
  if Json.beq a b then
    (jget cis "state").map fun st => Json.beq st (Json.str "complete")
  else Except.ok false

/-- The inner loop of the Checklist constructor: walk the checked-state
dictionaries, setting the checked flag of the item to True on a complete
match. -/
def Checklist.applyCheckedList : List Json → Json → Except TrelloError Json
  | [], item => Except.ok item
  | cis :: rest, item =>
      (Checklist.checkStep cis item).bind fun b =>
      if b then
        (setFieldE item "checked" (Json.bool true)).bind fun item2 =>
        Checklist.applyCheckedList rest item2
      else Checklist.applyCheckedList rest item

/-- Initialization of one checklist item: set checked to False, then scan
the checked-state dictionaries. -/
def Checklist.initItem (checked : List Json) (item : Json) :
    Except TrelloError Json :=
  (setFieldE item "checked" (Json.bool false)).bind fun item0 =>
  Checklist.applyCheckedList checked item0

/-- Checklist.__init__: store the card id, read id, name and checkItems
from the object, and initialize the checked flag of every item from the
checked-state list. -/
def Checklist.make (checked : Json) (obj : Json)
    (trello_card : Option String) : Except TrelloError ChecklistState :=
  (jget obj "id").bind fun idv =>
  (asStr idv).bind fun ids =>
  (jget obj "name").bind fun namev =>
  (jget obj "checkItems").bind fun itemsv =>
  (asArr itemsv).bind fun items =>
  (asArr checked).bind fun checkedL =>
  (items.mapM (Checklist.initItem checkedL)).map fun items2 =>
  { trello_card := trello_card, id := ids, name := namev, items := items2 }

/-- Card.fetch_checklists: GET the checklists of the card and build a
Checklist from each element, passing the cached checkItemStates (an
absent checked attribute raises AttributeError). -/
def Card.fetch_checklists (t : Transport) (c : CardState) :
    List Request × Except TrelloError (List ChecklistState) :=
  match fetch_json t "GET" ("/cards/" ++ c.id ++ "/checklists") [] [] none with
  | (req, Except.error e) => ([req], Except.error e)
  | (req, Except.ok j) =>
      match c.checked with
      | none => ([req], Except.error
          (TrelloError.exception "AttributeError: checked"))
      | some chk =>
          ([req],
            (asArr j).bind fun cls =>
            cls.mapM fun clj => Checklist.make chk clj (some c.id))

/-- Card.fetch_comments: no request at all unless the cached badges
dictionary reports a positive comment count; otherwise GET the comment
actions. -/
def Card.fetch_comments (t : Transport) (c : CardState) :
    List Request × Except TrelloError Json :=
  match c.badges with
  | none => ([], Except.error (TrelloError.exception "AttributeError: badges"))
  | some b =>
      match getField b "comments" with
      | none => ([], Except.error (TrelloError.exception "KeyError: comments"))
      | some (Json.num n) =>
          if n > 0 then
            match fetch_json t "GET" ("/cards/" ++ c.id ++ "/actions")
                [("filter", Json.str "commentCard")] [] none with
            | (req, r) => ([req], r)
          else ([], Except.ok (Json.arr []))
      | some _ => ([], Except.error
          (TrelloError.exception "TypeError: not comparable to int"))

/-- Partial progress of the attribute assignments in Card.fetch: the state
so far, and the exception that interrupted them, when one did. -/
def FetchStep : Type := CardState × Option TrelloError

/-- Run one assignment statement of Card.fetch: skipped after an earlier
exception; on failure the state keeps the assignments already executed. -/
def stepJ (r : FetchStep) (f : CardState → Except TrelloError CardState) :
    FetchStep :=
  match r with
  | (s, some e) => (s, some e)
  | (s, none) =>
      match f s with
      | Except.ok s2 => (s2, none)
      | Except.error e => (s, some e)

/-- The attribute assignments of Card.fetch, in source order: id, name,
desc (empty default), closed, url, idMembers, idShort, idList, idBoard,
idLabels, labels, badges, due (only when truthy, truncated to its first
ten characters), checkItemStates, dateLastActivity. -/
def Card.fetchApply (j : Json) (c : CardState) : FetchStep :=
  let r : FetchStep := (c, none)
  let r := stepJ r fun s => (jget j "id").bind fun v =>
    (asStr v).map fun sv => { s with id := sv }
  let r := stepJ r fun s => (jget j "name").bind fun v =>
    (asStr v).map fun sv => { s with name := sv }
  let r := stepJ r fun s =>
    Except.ok { s with desc := some (getFieldD j "desc" (Json.str "")) }
  let r := stepJ r fun s => (jget j "closed").map fun v =>
    { s with closed := some v }
  let r := stepJ r fun s => (jget j "url").map fun v =>
    { s with url := some v }
  let r := stepJ r fun s => (jget j "idMembers").map fun v =>
    { s with idMembers := some v }
  let r := stepJ r fun s => (jget j "idShort").map fun v =>
    { s with idShort := some v }
  let r := stepJ r fun s => (jget j "idList").map fun v =>
    { s with idList := some v }
  let r := stepJ r fun s => (jget j "idBoard").map fun v =>
    { s with idBoard := some v }
  let r := stepJ r fun s => (jget j "idLabels").map fun v =>
    { s with label_ids := some v }
  let r := stepJ r fun s => (jget j "labels").map fun v =>
    { s with labels := some v }
  let r := stepJ r fun s => (jget j "badges").map fun v =>
    { s with badges := some v }
  let r := stepJ r fun s =>
    if pyTruthy (getFieldD j "due" (Json.str "")) then
      (asStr (getFieldD j "due" (Json.str ""))).map fun sv =>
        { s with due := some (sv.take 10) }
    else Except.ok s
  let r := stepJ r fun s => (jget j "checkItemStates").map fun v =>
    { s with checked := some v }
  stepJ r fun s => (jget j "dateLastActivity").bind fun v =>
    (asStr v).map fun sv =>
      { s with dateLastActivity := some (dateparser_parse sv) }

/-- The request Card.fetch issues for the card itself. -/
def cardFetchReq (cid : String) : Request :=
  mkFetchReq "GET" ("/cards/" ++ cid) [("badges", Json.bool false)] [] none

/-- The last two statements of Card.fetch, populating the lazy
collections: eagerly fetch checklists then comments when eager is set,
otherwise reset both to the not-fetched sentinel. -/
def Card.fetchFinish (t : Transport) (req : Request) (s : CardState)
    (eager : Bool) : OpResult CardState Unit :=
  if eager then
    match Card.fetch_checklists t s with
    | (reqs2, Except.error e) => ⟨s, req :: reqs2, Except.error e⟩
    | (reqs2, Except.ok cls) =>
        let s2 := { s with checklists := some cls }
        match Card.fetch_comments t s2 with
        | (reqs3, Except.error e) =>
            ⟨s2, req :: reqs2 ++ reqs3, Except.error e⟩
        | (reqs3, Except.ok cm) =>
            ⟨{ s2 with comments := some cm },
              req :: reqs2 ++ reqs3, Except.ok ()⟩
  else
    ⟨{ s with checklists := none, comments := none }, [req], Except.ok ()⟩

/-- Card.fetch: GET the card, apply the attribute assignments in order,
then populate the lazy collections.  On an exception the state keeps the
assignments already executed. -/
def Card.fetch (t : Transport) (c : CardState) (eager : Bool) :
    OpResult CardState Unit :=
  match fetch_json t "GET" ("/cards/" ++ c.id)
      [("badges", Json.bool false)] [] none with
  | (req, Except.error e) => ⟨c, [req], Except.error e⟩
  | (req, Except.ok j) =>
      match Card.fetchApply j c with
      | (s, some e) => ⟨s, [req], Except.error e⟩
      | (s, none) => Card.fetchFinish t req s eager

/-- The lazy-collection epilogue of Card.fetch never changes the due
field. -/
theorem fetchFinish_due (t : Transport) (req : Request) (s : CardState)
    (eager : Bool) :
    (Card.fetchFinish t req s eager).state.due = s.due := by
  unfold Card.fetchFinish
  cases eager with
  | false => rfl
  | true =>
      rcases hcl : Card.fetch_checklists t s with ⟨reqs2, rcl⟩
      cases rcl with
      | error e => simp [hcl]
      | ok cls =>
          rcases hcm : Card.fetch_comments t
              { s with checklists := some cls } with ⟨reqs3, rcm⟩
          cases rcm with
          | error e => simp [hcl, hcm]
          | ok cm => simp [hcl, hcm]

/-- The card JSON shape Card.fetch consumes: every field the assignments
read, with string id, name, due and dateLastActivity. -/
def mkCardJson (ids nms : String)
    (descv closedv urlv memv shortv listv boardv labv labelsv badgesv : Json)
    (sd : String) (chkv : Json) (dlas : String) : Json :=
  Json.obj [("id", Json.str ids), ("name", Json.str nms), ("desc", descv),
    ("closed", closedv), ("url", urlv), ("idMembers", memv),
    ("idShort", shortv), ("idList", listv), ("idBoard", boardv),
    ("idLabels", labv), ("labels", labelsv), ("badges", badgesv),
    ("due", Json.str sd), ("checkItemStates", chkv),
    ("dateLastActivity", Json.str dlas)]

/-- Evaluation of the Card.fetch assignment chain on the full card JSON
shape with a non-empty due string: every documented field is overwritten
and the due value is truncated to its first ten characters. -/
theorem fetchApply_mkCardJson (c : CardState) (ids nms : String)
    (descv closedv urlv memv shortv listv boardv labv labelsv badgesv : Json)
    (sd : String) (chkv : Json) (dlas : String)
    (hie : sd.isEmpty = false) :
    Card.fetchApply (mkCardJson ids nms descv closedv urlv memv shortv listv
      boardv labv labelsv badgesv sd chkv dlas) c =
    ({ c with
        id := ids,
        name := nms,
        desc := some descv,
        closed := some closedv,
        url := some urlv,
        idMembers := some memv,
        idShort := some shortv,
        idList := some listv,
        idBoard := some boardv,
        label_ids := some labv,
        labels := some labelsv,
        badges := some badgesv,
        due := some (sd.take 10),
        checked := some chkv,
        dateLastActivity := some (dateparser_parse dlas) }, none) := by
  simp [Card.fetchApply, stepJ, jget, getField, lookupField, mkCardJson,
    asStr, Except.bind, Except.map, getFieldD, pyTruthy, hie]

/-- C8: Card.set_due writes the datetime formatted as the ten-character
YYYY-MM-DD string and mirrors exactly that string locally; a subsequent
fetch truncates the due value the server returns to its first ten
characters, so when the server echoes a timestamp beginning with the
stored date string, the cached due field round-trips to the same
YYYY-MM-DD string. -/
theorem spec_c8 (t : Transport) (c c2 : CardState) (d : PyDatetime)
    (eager : Bool) (txt ids nms sd dlas : String)
    (descv closedv urlv memv shortv listv boardv labv labelsv badgesv
      chkv : Json) :
    ((Card.set_due t c d).calls =
      [setAttrReq c.id "due" (Json.str (strftimeYmd d))]) ∧
    ((Card.set_due t c d).result = Except.ok () →
      (Card.set_due t c d).state.due = some (strftimeYmd d)) ∧
    ((strftimeYmd d).length = 10) ∧
    ((strftimeYmd d).take 10 = strftimeYmd d) ∧
    (t (cardFetchReq c2.id) = ⟨200, txt, mkCardJson ids nms descv closedv
        urlv memv shortv listv boardv labv labelsv badgesv sd chkv dlas⟩ →
      sd ≠ "" →
      sd.take 10 = strftimeYmd d →
      (Card.fetch t c2 eager).state.due = some (strftimeYmd d)) := by
  refine ⟨writeThenMirror_calls _ _ _, ?_, ?_, ?_, ?_⟩
  · intro h
    rw [Card.set_due, writeThenMirror_ok _ _ _ h]
  · rfl
  · rw [String.take_eq]
    rfl
  · intro hresp hne hsd
    have hie : sd.isEmpty = false := by
      rw [Bool.eq_false_iff]
      intro hh
      exact hne ((String.isEmpty_iff sd).mp hh)
    have happ := fetchApply_mkCardJson c2 ids nms descv closedv urlv memv
      shortv listv boardv labv labelsv badgesv sd chkv dlas hie
    unfold Card.fetch
    rw [show fetch_json t "GET" ("/cards/" ++ c2.id)
        [("badges", Json.bool false)] [] none =
        (cardFetchReq c2.id, fetchOutcome t (cardFetchReq c2.id)) from rfl]
    rw [show fetchOutcome t (cardFetchReq c2.id) =
        Except.ok (mkCardJson ids nms descv closedv urlv memv shortv listv
          boardv labv labelsv badgesv sd chkv dlas) by
      simp [fetchOutcome, hresp]]
    simp only [happ]
    rw [fetchFinish_due]
    simp [hsd]

/-- A transport echoing a fixed card whose due timestamp starts with the
date 2015-06-05. -/
def tdue : Transport := fun _ =>
  ⟨200, "", mkCardJson "c1" "Buy milk" (Json.str "") (Json.bool false)
    (Json.str "u") (Json.arr []) (Json.num 1) (Json.str "L0")
    (Json.str "B0") (Json.arr []) (Json.arr [])
    (Json.obj [("comments", Json.num 0)])
    "2015-06-05T00:00:00.000Z" (Json.arr []) "2015-06-05T01:00:00.000Z"⟩

/-- Concrete instance of spec_c8: set_due on 2015-06-05 caches exactly
2015-06-05, and fetching a card whose server due value is the timestamp
2015-06-05T00:00:00.000Z caches the truncated 2015-06-05 again. -/
theorem spec_c8_witness :
    (Card.set_due t200 sampleCard ⟨2015, 6, 5⟩).state.due =
      some (strftimeYmd ⟨2015, 6, 5⟩) ∧
    (Card.fetch tdue sampleCard true).state.due =
      some (strftimeYmd ⟨2015, 6, 5⟩) := by
  constructor
  · exact (spec_c8 t200 sampleCard sampleCard ⟨2015, 6, 5⟩ true "" "" "" ""
      "" Json.null Json.null Json.null Json.null Json.null Json.null
      Json.null Json.null Json.null Json.null Json.null).2.1 rfl
  · exact (spec_c8 tdue sampleCard sampleCard ⟨2015, 6, 5⟩ true "" "c1"
      "Buy milk" "2015-06-05T00:00:00.000Z" "2015-06-05T01:00:00.000Z"
      (Json.str "") (Json.bool false) (Json.str "u") (Json.arr [])
      (Json.num 1) (Json.str "L0") (Json.str "B0") (Json.arr [])
      (Json.arr []) (Json.obj [("comments", Json.num 0)])
      (Json.arr [])).2.2.2.2 rfl (by decide) (by decide)

/-- The request add_checklist_item posts for one new item. -/
def itemReq (clId nm : String) (checked : Bool) : Request :=
  mkFetchReq "POST" ("/checklists/" ++ clId ++ "/checkItems") []
    [("name", Json.str nm), ("checked", Json.bool checked)] none

/-- Checklist.add_checklist_item: POST the item, set the checked flag on
the returned dictionary, append it to the cached items. -/
def Checklist.add_checklist_item (t : Transport) (cl : ChecklistState)
    (nm : String) (checked : Bool) : OpResult ChecklistState Json :=
  match fetch_json t "POST" ("/checklists/" ++ cl.id ++ "/checkItems") []
      [("name", Json.str nm), ("checked", Json.bool checked)] none with
  | (req, Except.error e) => ⟨cl, [req], Except.error e⟩
  | (req, Except.ok j) =>
      match setFieldE j "checked" (Json.bool checked) with
      | Except.error e => ⟨cl, [req], Except.error e⟩
      | Except.ok j2 =>
          ⟨{ cl with items := cl.items ++ [j2] }, [req], Except.ok j2⟩

/-- The item loop of Card.add_checklist: for the i-th name, the checked
state is itemstates[i] when that index exists and False otherwise (the
IndexError branch); items are added in list order. -/
def addItemsLoop (t : Transport) (cl : ChecklistState) (names : List String)
    (ist : List Bool) (i : Nat) :
    ChecklistState × List Request × Option TrelloError :=
  match names with
  | [] => (cl, [], none)
  | nm :: rest =>
      let r := Checklist.add_checklist_item t cl nm (ist.getD i false)
      match r.result with
      | Except.error e => (r.state, r.calls, some e)
      | Except.ok _ =>
          match addItemsLoop t r.state rest ist (i + 1) with
          | (cl2, reqs, err) => (cl2, r.calls ++ reqs, err)

/-- The request add_checklist posts to create the checklist itself. -/
def createChecklistReq (cid title : String) : Request :=
  mkFetchReq "POST" ("/cards/" ++ cid ++ "/checklists") []
    [("name", Json.str title)] none

/-- Card.add_checklist: create the checklist remotely, wrap the response
in a Checklist with an empty checked-state list, add every item in order
with its per-index state, then re-fetch the card and return the
checklist. -/
def Card.add_checklist (t : Transport) (c : CardState) (title : String)
    (items : List String) (itemstates : Option (List Bool)) :
    OpResult CardState ChecklistState :=
  let ist := itemstates.getD []
  match fetch_json t "POST" ("/cards/" ++ c.id ++ "/checklists") []
      [("name", Json.str title)] none with
  | (req, Except.error e) => ⟨c, [req], Except.error e⟩
  | (req, Except.ok j) =>
      match Checklist.make (Json.arr []) j (some c.id) with
      | Except.error e => ⟨c, [req], Except.error e⟩
      | Except.ok cl0 =>
          match addItemsLoop t cl0 items ist 0 with
          | (_, reqs, some e) => ⟨c, req :: reqs, Except.error e⟩
          | (clx, reqs, none) =>
              match Card.fetch t c true with
              | ⟨fs, fcalls, Except.error e⟩ =>
                  ⟨fs, req :: reqs ++ fcalls, Except.error e⟩
              | ⟨fs, fcalls, Except.ok _⟩ =>
                  ⟨fs, req :: reqs ++ fcalls, Except.ok clx⟩

/-- The checked states the loop assigns, one per name, starting at
index i: itemstates[index] when present, False past its end. -/
def itemChecksGo (names : List String) (ist : List Bool) (i : Nat) :
    List Bool :=
  match names with
  | [] => []
  | _ :: rest => ist.getD i false :: itemChecksGo rest ist (i + 1)

/-- The requests the loop issues, in list order. -/
def itemReqsGo (clId : String) (names : List String) (ist : List Bool)
    (i : Nat) : List Request :=
  match names with
  | [] => []
  | nm :: rest =>
      itemReq clId nm (ist.getD i false) :: itemReqsGo clId rest ist (i + 1)

theorem lookupField_setFieldList (fs : List (String × Json)) (k : String)
    (v : Json) : lookupField (setFieldList fs k v) k = some v := by
  induction fs with
  | nil => simp [setFieldList, lookupField]
  | cons p rest ih =>
      rcases p with ⟨k2, v2⟩
      by_cases h : k2 == k
      · simp [setFieldList, lookupField, h]
      · simp [setFieldList, lookupField, h, ih]

theorem addItem_spec (t : Transport) (cl : ChecklistState) (nm : String)
    (b : Bool) (fs : List (String × Json))
    (h200 : (t (itemReq cl.id nm b)).status_code = 200)
    (hb : (t (itemReq cl.id nm b)).body = Json.obj fs) :
    Checklist.add_checklist_item t cl nm b =
      ⟨{ cl with
          items := cl.items ++
            [Json.obj (setFieldList fs "checked" (Json.bool b))] },
        [itemReq cl.id nm b],
        Except.ok (Json.obj (setFieldList fs "checked" (Json.bool b)))⟩ := by
  unfold Checklist.add_checklist_item
  rw [show fetch_json t "POST" ("/checklists/" ++ cl.id ++ "/checkItems") []
      [("name", Json.str nm), ("checked", Json.bool b)] none =
      (itemReq cl.id nm b, fetchOutcome t (itemReq cl.id nm b)) from rfl]
  rw [fetchOutcome_of_200 t _ h200, hb]
  simp [setFieldE]

theorem addItemsLoop_spec (t : Transport) (clId : String)
    (h200 : ∀ nm b, (t (itemReq clId nm b)).status_code = 200)
    (hbody : ∀ nm b, ∃ fs, (t (itemReq clId nm b)).body = Json.obj fs) :
    ∀ (names : List String) (ist : List Bool) (i : Nat)
      (cl : ChecklistState), cl.id = clId →
    (addItemsLoop t cl names ist i).2.2 = none ∧
    (addItemsLoop t cl names ist i).2.1 = itemReqsGo clId names ist i ∧
    (addItemsLoop t cl names ist i).1.id = clId ∧
    (addItemsLoop t cl names ist i).1.items.map
        (fun it => getField it "checked") =
      cl.items.map (fun it => getField it "checked") ++
        (itemChecksGo names ist i).map (fun b => some (Json.bool b)) := by
  intro names
  induction names with
  | nil =>
      intro ist i cl hid
      simp [addItemsLoop, itemReqsGo, itemChecksGo, hid]
  | cons nm rest ih =>
      intro ist i cl hid
      obtain ⟨fs, hfs⟩ := hbody nm (ist.getD i false)
      have hitem := addItem_spec t cl nm (ist.getD i false) fs
        (by rw [hid]; exact h200 nm (ist.getD i false))
        (by rw [hid]; exact hfs)
      have hnext := ih ist (i + 1)
        { cl with
          items := cl.items ++
            [Json.obj (setFieldList fs "checked"
              (Json.bool (ist.getD i false)))] } hid
      rcases hL : addItemsLoop t
          { cl with
            items := cl.items ++
              [Json.obj (setFieldList fs "checked"
                (Json.bool (ist.getD i false)))] } rest ist (i + 1) with
        ⟨cl2, reqs, err⟩
      rw [hL] at hnext
      dsimp only at hnext
      have hstep : addItemsLoop t cl (nm :: rest) ist i =
          (cl2, itemReq cl.id nm (ist.getD i false) :: reqs, err) := by
        simp only [addItemsLoop, hitem, hL]
        rfl
      rw [hstep]
      dsimp only
      refine ⟨hnext.1, ?_, hnext.2.2.1, ?_⟩
      · simp only [itemReqsGo, hid]
        rw [hnext.2.1]
      · simp only [itemChecksGo]
        rw [hnext.2.2.2]
        simp [getField, lookupField_setFieldList]

theorem itemChecksGo_getD (ist : List Bool) :
    ∀ (names : List String) (i k : Nat), k < names.length →
    (itemChecksGo names ist i).getD k false = ist.getD (i + k) false := by
  intro names
  induction names with
  | nil => intro i k hk; cases hk
  | cons nm rest ih =>
      intro i k hk
      cases k with
      | zero => simp [itemChecksGo]
      | succ k2 =>
          have hk2 : k2 < rest.length := Nat.lt_of_succ_lt_succ hk
          have hsum : i + 1 + k2 = i + (k2 + 1) := by omega
          have hrec := ih (i + 1) k2 hk2
          simp only [itemChecksGo, List.getD_cons_succ]
          rw [hrec, hsum]

theorem itemChecksGo_nil_state :
    ∀ (names : List String) (i : Nat),
    itemChecksGo names [] i = List.replicate names.length false := by
  intro names
  induction names with
  | nil => intro i; rfl
  | cons nm rest ih =>
      intro i
      simp [itemChecksGo, List.replicate, ih (i + 1)]

/-- C10: under a transport that accepts the item creations (status 200,
object bodies) and a card fetch that succeeds, Card.add_checklist adds the
items in the order of the items list, each with the checked state taken
from itemstates at its index and False past the end of itemstates (all
False when itemstates is omitted), issuing the creation request followed
by one item request per name in order, and returns the built checklist. -/
theorem spec_c10 (t : Transport) (c : CardState) (title : String)
    (names : List String) (itemstates : Option (List Bool))
    (cl0 : ChecklistState)
    (hcreate : (t (createChecklistReq c.id title)).status_code = 200)
    (hmk : Checklist.make (Json.arr [])
      ((t (createChecklistReq c.id title)).body) (some c.id) =
      Except.ok cl0)
    (h200 : ∀ nm b, (t (itemReq cl0.id nm b)).status_code = 200)
    (hbody : ∀ nm b, ∃ fs, (t (itemReq cl0.id nm b)).body = Json.obj fs)
    (hfetch : (Card.fetch t c true).result = Except.ok ()) :
    ((Card.add_checklist t c title names itemstates).result =
      Except.ok (addItemsLoop t cl0 names (itemstates.getD []) 0).1) ∧
    ((Card.add_checklist t c title names itemstates).calls =
      createChecklistReq c.id title ::
        itemReqsGo cl0.id names (itemstates.getD []) 0 ++
        (Card.fetch t c true).calls) ∧
    ((addItemsLoop t cl0 names (itemstates.getD []) 0).1.items.map
        (fun it => getField it "checked") =
      cl0.items.map (fun it => getField it "checked") ++
        (itemChecksGo names (itemstates.getD []) 0).map
          (fun b => some (Json.bool b))) ∧
    (∀ k, k < names.length → (itemstates.getD []).length ≤ k →
      (itemChecksGo names (itemstates.getD []) 0).getD k false = false) ∧
    (itemstates = none →
      itemChecksGo names (itemstates.getD []) 0 =
        List.replicate names.length false) := by
  have hloop := addItemsLoop_spec t cl0.id h200 hbody names
    (itemstates.getD []) 0 cl0 rfl
  have hred : Card.add_checklist t c title names itemstates =
      (match Card.fetch t c true with
       | ⟨fs, fcalls, Except.error e⟩ =>
           ⟨fs, createChecklistReq c.id title ::
             (addItemsLoop t cl0 names (itemstates.getD []) 0).2.1 ++ fcalls,
             Except.error e⟩
       | ⟨fs, fcalls, Except.ok _⟩ =>
           ⟨fs, createChecklistReq c.id title ::
             (addItemsLoop t cl0 names (itemstates.getD []) 0).2.1 ++ fcalls,
             Except.ok (addItemsLoop t cl0 names (itemstates.getD []) 0).1⟩) := by
    unfold Card.add_checklist
    rw [show fetch_json t "POST" ("/cards/" ++ c.id ++ "/checklists") []
        [("name", Json.str title)] none =
        (createChecklistReq c.id title,
          fetchOutcome t (createChecklistReq c.id title)) from rfl]
    rw [fetchOutcome_of_200 t _ hcreate]
    dsimp only
    rw [hmk]
    dsimp only
    rcases hL : addItemsLoop t cl0 names (itemstates.getD []) 0 with
      ⟨clx, reqs, err⟩
    rw [hL] at hloop
    dsimp only at hloop
    rw [hloop.1]
  refine ⟨?_, ?_, hloop.2.2.2, ?_, ?_⟩
  · rw [hred]
    rcases hF : Card.fetch t c true with ⟨fst, fcalls, fres⟩
    rw [hF] at hfetch
    dsimp only at hfetch
    rw [hfetch]
  · rw [hred]
    rcases hF : Card.fetch t c true with ⟨fst, fcalls, fres⟩
    cases fres <;> dsimp only <;> rw [hloop.2.1]
  · intro k hk hlen
    rw [itemChecksGo_getD (itemstates.getD []) names 0 k hk]
    exact List.getD_eq_default _ _ (by simpa using hlen)
  · intro hnone
    rw [hnone]
    exact itemChecksGo_nil_state names 0

/-- A card known only by its id, as list queries produce. -/
def wcard : CardState := { emptyCard with id := "c1" }

/-- The checklist state built from the creation response of tcl10. -/
def wcl0 : ChecklistState :=
  { trello_card := some "c1", id := "cl9", name := Json.str "T", items := [] }

/-- A transport for the add_checklist scenario: checklist creation returns
an empty checklist cl9, item creation returns an item dictionary, the card
fetch returns a full card, everything else an empty array; every status
is 200. -/
def tcl10 : Transport := fun req =>
  if req.url == apiUrl ("/checklists/" ++ "cl9" ++ "/checkItems") then
    ⟨200, "", Json.obj [("id", Json.str "it")]⟩
  else if (req.url == apiUrl ("/cards/" ++ "c1" ++ "/checklists")) &&
      (req.http_method == "POST") then
    ⟨200, "", Json.obj [("id", Json.str "cl9"), ("name", Json.str "T"),
      ("checkItems", Json.arr [])]⟩
  else if req.url == apiUrl ("/cards/" ++ "c1") then
    ⟨200, "", mkCardJson "c1" "n" (Json.str "") (Json.bool false)
      (Json.str "u") (Json.arr []) (Json.num 1) (Json.str "L0")
      (Json.str "B0") (Json.arr []) (Json.arr [])
      (Json.obj [("comments", Json.num 0)]) "2015-06-05" (Json.arr [])
      "2015-06-05T01:00:00.000Z"⟩
  else ⟨200, "", Json.arr []⟩

/-- Concrete instance of spec_c10: adding items a, b with
itemstates=[True] yields checked states True for a and False for b (the
index of b is past the end of itemstates). -/
theorem spec_c10_witness :
    (Card.add_checklist tcl10 wcard "T" ["a", "b"] (some [true])).result =
      Except.ok (addItemsLoop tcl10 wcl0 ["a", "b"] [true] 0).1 ∧
    (addItemsLoop tcl10 wcl0 ["a", "b"] [true] 0).1.items.map
        (fun it => getField it "checked") =
      [some (Json.bool true), some (Json.bool false)] := by
  have H := spec_c10 tcl10 wcard "T" ["a", "b"] (some [true]) wcl0 rfl rfl
    (fun _ _ => rfl) (fun _ _ => ⟨[("id", Json.str "it")], rfl⟩) rfl
  exact ⟨H.1, H.2.2.1.trans rfl⟩
